import Mathlib

/-
Verification development for the DictORM core (src/dictorm/dictorm.py).

The Python source is shallowly embedded below:
  * `column_value_pairs` and friends mirror the pure SQL-fragment builders;
  * `RGen` mirrors `ResultsGenerator` (lazily executed cursor wrapper);
  * `TableMeta` / `DB` mirror `Table` / `DictDB` state: per-table primary
    keys, the relationship registry (`Table.refs`) and the stored rows;
  * `DictObj` mirrors `Dict` (row object with `_in_db`, `_old` snapshot);
  * `DictObj.run` / `DictObj.getitem` mirror `Dict.__getitem__` including
    relationship resolution and substratum projection;
  * `DictObj.flush` mirrors `Dict.flush` (update path keyed by the `_old`
    snapshot primary-key values).

Row values are modelled by `Scalar` (SQL cell values) and `Value`
(query/bind values, which may additionally be flat lists, used for `IN`
clauses, or flat string-keyed dictionaries, used by `json_dicts`).
Driver-level failures (unbindable parameters, fetching from an empty
cursor into `dict.__init__`) are modelled as explicit error values.
-/

/-- SQL dialect tag, `DictDB.kind` in the source. -/
inductive Kind where
  | sqlite3
  | postgresql
deriving DecidableEq, Repr

/-- A SQL cell value as stored in a row. -/
inductive Scalar where
  | null
  | int (n : Int)
  | str (s : String)
  | bool (b : Bool)
deriving DecidableEq, Repr

/-- A Python value handed to the query builder or bound as a parameter:
a scalar, a flat list (membership / `IN` semantics) or a flat string-keyed
dictionary (serialized by `json_dicts`). -/
inductive Value where
  | s (x : Scalar)
  | list (l : List Scalar)
  | dict (d : List (String × Scalar))
deriving DecidableEq, Repr

/-- Errors surfaced by the embedded code: the two exception classes the
source defines (`NoPrimaryKey`, `UnexpectedRows`) plus the Python / driver
level failures the source can raise (`IndexError` from `l[0]`, `KeyError`
from `dict.__getitem__`, `TypeError` from subscripting `None` or from
`dict.__init__(None)` after an empty fetch, `ValueError` from tuple
unpacking, driver bind failures), and fuel exhaustion for the fuelled
recursion of `__getitem__`. -/
inductive Err where
  | noPrimaryKey
  | unexpectedRows
  | indexError
  | keyError
  | typeError
  | valueError
  | bindError
  | outOfFuel
deriving DecidableEq, Repr

/-- Association-list lookup (first match), modelling Python `dict` access
on our ordered key/value lists. -/
def alookup {α : Type} : List (String × α) → String → Option α
  | [], _ => none
  | (k, v) :: rest, key => if k = key then some v else alookup rest key

/-- Python `dict` item assignment: replace the value of the existing key
in place (keys are unique in a real dict), otherwise append the new pair. -/
def setEntry {α : Type} : List (String × α) → String → α → List (String × α)
  | [], key, v => [(key, v)]
  | kv :: rest, key, v =>
    if kv.1 = key then (key, v) :: rest else kv :: setEntry rest key v

/-- `dict.update` / `dict.__init__` with an argument: fold item assignment
over the new pairs. -/
def putAll {α : Type} (base upd : List (String × α)) : List (String × α) :=
  upd.foldl (fun acc kv => setEntry acc kv.1 kv.2) base

/-- Insert a string into a lexicographically sorted list. -/
def insertSorted (s : String) : List String → List String
  | [] => [s]
  | t :: rest => if s ≤ t then s :: t :: rest else t :: insertSorted s rest

/-- `sorted(...)` over keys: stable lexicographic insertion sort. -/
def sortStrings (l : List String) : List String :=
  l.foldr insertSorted []

/-- `operator_kinds` (dictorm.py line 36): `" IN "` for sequence values,
`"="` otherwise. -/
def operator_kinds (isSeq : Bool) : String :=
  if isSeq then " IN " else "="

/-- Whether a value is a Python `list`/`tuple` (membership semantics). -/
def isSeqValue : Value → Bool
  | .list _ => true
  | _ => false

/-- Python `str()` of a scalar, used when sqlite3 list values are inlined
into the SQL text by `column_value_pairs`. -/
def scalarStr : Scalar → String
  | .null => "None"
  | .int n => toString n
  | .str s => s
  | .bool b => cond b "True" "False"

/-- The per-key fragment of `column_value_pairs` for the dictionary case:
`key` + operator + placeholder (sqlite3 inlines list values verbatim). -/
def cvpFragment (kind : Kind) (d : List (String × Value)) (pfx key : String) : String :=
  let v := (alookup d key).getD (.s .null)
  key ++ operator_kinds (isSeqValue v) ++
    (match kind with
     | .sqlite3 =>
        match v with
        | .list l => "(" ++ String.intercalate "," (l.map scalarStr) ++ ")"
        | _ => ":" ++ pfx ++ key
     | .postgresql => "%(" ++ pfx ++ key ++ ")s")

/-- `column_value_pairs` (dictorm.py lines 42-79), dictionary argument:
keys are iterated in sorted order and joined with `join_str`; the column
name itself is concatenated into the SQL text without any validation. -/
def column_value_pairs (kind : Kind) (d : List (String × Value))
    (join_str : String) (pfx : String) : String :=
  String.intercalate join_str
    ((sortStrings (d.map Prod.fst)).map (cvpFragment kind d pfx))

/-- `column_value_pairs` applied to a list of column names (the
`Table._pk_value_pairs` call site): always `=` with a named placeholder. -/
def column_value_pairs_list (kind : Kind) (cols : List String)
    (join_str : String) (pfx : String) : String :=
  String.intercalate join_str
    ((sortStrings cols).map (fun key =>
      key ++ "=" ++
        (match kind with
         | .sqlite3 => ":" ++ pfx ++ key
         | .postgresql => "%(" ++ pfx ++ key ++ ")s")))

/-- Modelled from the spec (section 4.1): the allow-list pattern for column
names, letters, digits and underscore.  The source contains no such check;
this definition exists only to state claim C5. -/
def validColumnName (s : String) : Bool :=
  s ≠ "" && s.toList.all (fun c => c.isAlphanum || c = '_')

/-- The column name used by the repository's own injection test
(`test_dictorm.py` line 1044). -/
def badColumnName : String := " \"; DELETE FROM person;"

/-- A relationship descriptor as stored in `Table.refs`: the 4-tuple shape
produced by `Reference.__eq__` / `Reference.__gt__` (owning column, target
table, target column, many flag; the leading owning-table element is kept
implicitly by the table name), or the 3-tuple shape produced by
`Reference.substratum` (base relationship name, projected field name; the
middle `Reference` element of the source tuple is never used). -/
inductive RefDesc where
  | direct (myColumn targetTable theirColumn : String) (many : Bool)
  | sub (baseName subName : String)
deriving DecidableEq, Repr

/-- Per-table state of a `Table` object: primary keys (`Table.pks`), the
relationship registry (`Table.refs`) and the `order_by` attribute. -/
structure TableMeta where
  pks : List String := []
  refs : List (String × RefDesc) := []
  orderByAttr : Option String := none
deriving DecidableEq, Repr, Inhabited

/-- A stored row. -/
abbrev Row := List (String × Scalar)

/-- The database: dialect tag, table metadata, and stored rows per table. -/
structure DB where
  kind : Kind
  tables : List (String × TableMeta)
  rows : List (String × List Row)
deriving DecidableEq, Repr

/-- Look up a table's metadata. -/
def metaOf (db : DB) (t : String) : TableMeta :=
  (alookup db.tables t).getD {}

/-- The stored rows of a table. -/
def rowsOf (db : DB) (t : String) : List Row :=
  (alookup db.rows t).getD []

/-- Replace the stored rows of a table. -/
def setRows (db : DB) (t : String) (rs : List Row) : DB :=
  { db with rows := setEntry db.rows t rs }

/-- SQL comparison of a row cell against a bound query value: `col=x` is
never true when either side is NULL; a list value uses `IN` membership. -/
def valueMatches (rv : Scalar) (qv : Value) : Bool :=
  match rv, qv with
  | .null, _ => false
  | _, .s .null => false
  | rv, .s x => rv == x
  | rv, .list l => l.contains rv
  | _, .dict _ => false

/-- A row satisfies a conjunction of column=value constraints. -/
def rowMatchesKw (kw : List (String × Value)) (r : Row) : Bool :=
  kw.all (fun p =>
    match alookup r p.1 with
    | some rv => valueMatches rv p.2
    | none => false)

/-- Rank used to compare cells of different shapes when sorting. -/
def scalarRank : Scalar → Nat
  | .null => 0
  | .bool _ => 1
  | .int _ => 2
  | .str _ => 3

/-- Total comparison on cells, used for `ORDER BY`. -/
def scalarLe (a b : Scalar) : Bool :=
  match a, b with
  | .int m, .int n => decide (m ≤ n)
  | .str s, .str t => decide (s ≤ t)
  | .bool x, .bool y => !x || y
  | _, _ => decide (scalarRank a ≤ scalarRank b)

/-- Stable ordered insertion of a row by the value of column `c`. -/
def orderedInsertRow (c : String) (r : Row) : List Row → List Row
  | [] => [r]
  | s :: rest =>
    if scalarLe ((alookup r c).getD .null) ((alookup s c).getD .null) then
      r :: s :: rest
    else
      s :: orderedInsertRow c r rest

/-- Stable insertion sort of rows by column `c` (`ORDER BY c`). -/
def sortByCol (c : String) (rs : List Row) : List Row :=
  rs.foldr (orderedInsertRow c) []

/-- Driver-side evaluation of the `SELECT * FROM t WHERE kw ORDER BY ob`
statement built by `Table.get_where`. -/
def executeSelect (db : DB) (t : String) (kw : List (String × Value))
    (ob : Option String) : List Row :=
  let f := (rowsOf db t).filter (rowMatchesKw kw)
  match ob with
  | none => f
  | some c => sortByCol c f

/-- The ordering column chosen by `Table.get_where` (lines 369-373):
the `order_by` attribute if set, else the first primary key if any. -/
def tableOrderBy (meta : TableMeta) : Option String :=
  match meta.orderByAttr with
  | some o => some o
  | none => meta.pks.head?

/-- `ResultsGenerator` state: the not-yet-executed statement text (`None`
after execution), the bound variables, the owning table, and the private
cursor (remaining fetchable rows plus the driver `rowcount`, `-1` before
any execute). -/
structure RGen where
  sql : Option String
  vars : List (String × Value)
  table : String
  orderBy : Option String
  curs : List Row
  rowcount : Int
deriving DecidableEq, Repr

/-- The SQL text built by `Table.get_where` (lines 386-395). -/
def buildSelectQuery (kind : Kind) (t : String) (kw : List (String × Value))
    (ob : Option String) : String :=
  "SELECT * FROM " ++ t ++ " " ++
    (if kw.isEmpty then "" else "WHERE " ++ column_value_pairs kind kw " AND " "" ++ " ") ++
    (match ob with
     | some c => "ORDER BY " ++ c
     | none => "")

/-- `Table.get_where` with keyword arguments: build the statement and wrap
it in an unexecuted `ResultsGenerator`. -/
def get_where_kw (db : DB) (t : String) (kw : List (String × Value)) : RGen :=
  let meta := metaOf db t
  let ob := tableOrderBy meta
  { sql := some (buildSelectQuery db.kind t kw ob), vars := kw, table := t,
    orderBy := ob, curs := [], rowcount := -1 }

/-- `Table.get_where` with positional arguments (lines 375-382): a single
dictionary argument becomes the keyword arguments; otherwise positional
values are zipped against the primary keys (`NoPrimaryKey` if the table
has none; extra values are silently dropped by `zip`). -/
def get_where_pos (db : DB) (t : String) (a : List Value) : Except Err RGen :=
  match a with
  | [] => .ok (get_where_kw db t [])
  | [Value.dict d] => .ok (get_where_kw db t (d.map (fun kv => (kv.1, Value.s kv.2))))
  | _ =>
    let meta := metaOf db t
    if meta.pks.isEmpty then .error .noPrimaryKey
    else .ok (get_where_kw db t (meta.pks.zip a))

/-- `Dict.delete`'s statement text (lines 580-584): built unconditionally,
with no primary-key check (`_pk_value_pairs` of an empty key list is the
empty string, leaving a bare `WHERE `). -/
def deleteQuery (kind : Kind) (t : String) (pks : List String) : String :=
  "DELETE FROM " ++ t ++ " WHERE " ++ column_value_pairs_list kind pks " AND " ""

mutual
/-- A value stored in a `Dict`'s mapping: a plain value, a cached resolved
single relationship (a `Dict` or null), a cached one-to-many relationship
(a `ResultsGenerator` object), or a substratum projection list. -/
inductive FVal where
  | v (x : Value)
  | record (d : DictObj)
  | stream (g : RGen)
  | listF (vs : List FVal)

/-- The `Dict` row object: owning table name (`_table`), persisted flag
(`_in_db`), the dictionary contents, and the `_old` snapshot taken at the
last synchronization with storage. -/
inductive DictObj where
  | mk (table : String) (inDb : Bool)
      (data : List (String × FVal)) (old : List (String × FVal))
end

/-- Owning table name of a `Dict`. -/
def DictObj.table : DictObj → String
  | .mk t _ _ _ => t

/-- The `_in_db` persisted flag. -/
def DictObj.inDb : DictObj → Bool
  | .mk _ b _ _ => b

/-- The dictionary contents of a `Dict`. -/
def DictObj.data : DictObj → List (String × FVal)
  | .mk _ _ d _ => d

/-- The `_old` snapshot of a `Dict`. -/
def DictObj.old : DictObj → List (String × FVal)
  | .mk _ _ _ o => o

/-- A plain value if the field holds one (a bindable query parameter). -/
def FVal.toValue? : FVal → Option Value
  | .v x => some x
  | _ => none

/-- `Dict.remove_refs` (lines 596-601): drop every key present in the
owning table's relationship registry. -/
def removeRefsData (meta : TableMeta) (data : List (String × FVal)) : List (String × FVal) :=
  data.filter (fun kv => (alookup meta.refs kv.1).isNone)

/-- `Table.__call__` (lines 320-325): construct a `Dict` from initial
contents (`Dict.__init__` takes the `_old` snapshot as `remove_refs()` of
those contents) and then `_add_references` assigns `None` to every
registered relationship name. -/
def tableCall (t : String) (meta : TableMeta) (kw : List (String × FVal)) : DictObj :=
  let old := removeRefsData meta kw
  let data := meta.refs.foldl (fun acc kv => setEntry acc kv.1 (FVal.v (Value.s .null))) kw
  .mk t false data old

/-- A row materialized by `ResultsGenerator.__next__` (lines 198-207):
`self.table(d)` followed by `_in_db = True`. -/
def rowToDict (t : String) (meta : TableMeta) (r : Row) : DictObj :=
  let kw : List (String × FVal) := r.map (fun kv => (kv.1, FVal.v (Value.s kv.2)))
  let d := tableCall t meta kw
  .mk t true d.data d.old

/-- `ResultsGenerator._execute_once` (lines 210-216): run the statement
only if it has not run yet, then clear it.  The second component counts
whether an execution actually happened in this call. -/
def rgExecOnce (db : DB) (g : RGen) : RGen × Nat :=
  match g.sql with
  | some _ =>
    let rs := executeSelect db g.table g.vars g.orderBy
    ({ g with sql := none, curs := rs, rowcount := rs.length }, 1)
  | none => (g, 0)

/-- `ResultsGenerator.__next__`: execute once, fetch one row, convert it
to a persisted `Dict` (`none` models `StopIteration`). -/
def rgNext (db : DB) (g : RGen) : Option DictObj × RGen × Nat :=
  let g1 := (rgExecOnce db g).1
  let n := (rgExecOnce db g).2
  match g1.curs with
  | [] => (none, g1, n)
  | r :: rest =>
    (some (rowToDict g1.table (metaOf db g1.table) r), { g1 with curs := rest }, n)

/-- `ResultsGenerator.__len__` (lines 223-228): execute once, then report
the driver rowcount (always `0` under sqlite3). -/
def rgLen (db : DB) (g : RGen) : Int × RGen × Nat :=
  let g1 := (rgExecOnce db g).1
  let n := (rgExecOnce db g).2
  match db.kind with
  | .sqlite3 => (0, g1, n)
  | .postgresql => (g1.rowcount, g1, n)

/-- Iterating a `ResultsGenerator` to completion (repeated `__next__`
until `StopIteration`): execute once and drain the cursor. -/
def rgIterAll (db : DB) (g : RGen) : List DictObj × RGen × Nat :=
  let g1 := (rgExecOnce db g).1
  let n := (rgExecOnce db g).2
  (g1.curs.map (rowToDict g1.table (metaOf db g1.table)), { g1 with curs := [] }, n)

/-- `Table.get_one` with keyword arguments (lines 399-410):
`list(self.get_where(**kw))`, then `UnexpectedRows` if more than one row,
then `l[0]` (`IndexError` when the list is empty). -/
def get_one_kw (db : DB) (t : String) (kw : List (String × Value)) : Except Err DictObj :=
  let l := (rgIterAll db (get_where_kw db t kw)).1
  if 1 < l.length then .error .unexpectedRows
  else
    match l with
    | [] => .error .indexError
    | d :: _ => .ok d

/-- An operation a caller can trigger on a `ResultsGenerator`: an
iteration step or a length query. -/
inductive RGOp where
  | next
  | len
deriving DecidableEq, Repr

/-- Apply one operation, reporting how many statement executions it
caused. -/
def rgApplyOp (db : DB) (g : RGen) : RGOp → RGen × Nat
  | .next => ((rgNext db g).2.1, (rgNext db g).2.2)
  | .len => ((rgLen db g).2.1, (rgLen db g).2.2)

/-- Run a sequence of generator operations, accumulating the number of
statement executions. -/
def rgRunOps (db : DB) : RGen → List RGOp → RGen × Nat
  | g, [] => (g, 0)
  | g, op :: rest =>
    ((rgRunOps db (rgApplyOp db g op).1 rest).1,
     (rgApplyOp db g op).2 + (rgRunOps db (rgApplyOp db g op).1 rest).2)

/-- A pending unit of work inside `Dict.__getitem__`: a single field
lookup, or the substratum list comprehension
`[i[their_sub_ref] for i in val]` over the records of a result. -/
inductive GTask where
  | one (d : DictObj) (key : String)
  | many (ds : List DictObj) (key : String)

/-- The answer to a `Task`: the looked-up value together with the
(possibly mutated, cache-updated) record, or the projected list. -/
inductive RunOut where
  | one (v : FVal) (d : DictObj)
  | many (vs : List FVal)

/-- Resolution of a direct relationship (lines 620-629): many-cardinality
wraps an unexecuted `get_where` stream; single cardinality issues
`get_one`, turning `IndexError` (zero rows) into `None` and letting any
other error (notably `UnexpectedRows`) propagate. -/
def resolveDirectVal (db : DB) (tt tc : String) (many : Bool) (mv : Value) : Except Err FVal :=
  if many then .ok (.stream (get_where_kw db tt [(tc, mv)]))
  else
    match get_one_kw db tt [(tc, mv)] with
    | .ok r => .ok (.record r)
    | .error .indexError => .ok (.v (.s .null))
    | .error e => .error e

/-- `Dict.__getitem__` (lines 604-638), fuelled.  A key in the
relationship registry is always re-resolved: the 3-tuple substratum shape
first rebinds the descriptor to `refs[my_column]`, then the direct shape
is resolved with `wheres = (their_column, self[my_column])` (a recursive
lookup), then a substratum projects the named field out of each resulting
record (many case) or out of the single record (`TypeError` when the base
resolved to `None`), and finally the resolved value is stored into the
record's own mapping under the looked-up key.  A key in neither the
registry nor the mapping is a `KeyError`. -/
def runTask (db : DB) : Nat → GTask → Except Err RunOut
  | 0, _ => .error .outOfFuel
  | Nat.succ _, .many [] _ => .ok (.many [])
  | Nat.succ fuel, .many (i :: rest) key => do
    let r ← runTask db fuel (.one i key)
    match r with
    | .one v _ =>
      let rs ← runTask db fuel (.many rest key)
      match rs with
      | .many vs => .ok (.many (v :: vs))
      | .one _ _ => .error .typeError
    | .many _ => .error .typeError
  | Nat.succ fuel, .one d key =>
    let meta := metaOf db d.table
    match alookup meta.refs key with
    | none =>
      match alookup d.data key with
      | some v => .ok (.one v d)
      | none => .error .keyError
    | some r0 => do
      let (subInfo, my, tt, tc, many) ←
        match r0 with
        | .direct my tt tc many => pure ((none : Option String), my, tt, tc, many)
        | .sub baseName subRef =>
          match alookup meta.refs baseName with
          | some (.direct my tt tc many) => pure (some subRef, my, tt, tc, many)
          | some (.sub _ _) => .error .valueError
          | none => .error .keyError
      let r1 ← runTask db fuel (.one d my)
      let (mv, d1) ←
        match r1 with
        | .one mvf d1 =>
          match mvf.toValue? with
          | some mv => pure (mv, d1)
          | none => (.error .bindError : Except Err (Value × DictObj))
        | .many _ => .error .typeError
      let val0 ← resolveDirectVal db tt tc many mv
      let val ←
        match subInfo with
        | none => pure val0
        | some subRef =>
          if many then
            match val0 with
            | .stream g => do
              let l := (rgIterAll db g).1
              let rs ← runTask db fuel (.many l subRef)
              match rs with
              | .many vs => pure (FVal.listF vs)
              | .one _ _ => .error .typeError
            | _ => .error .typeError
          else
            match val0 with
            | .record r => do
              let rr ← runTask db fuel (.one r subRef)
              match rr with
              | .one pv _ => pure pv
              | .many _ => .error .typeError
            | _ => .error .typeError
      let d2 := DictObj.mk d1.table d1.inDb (setEntry d1.data key val) d1.old
      .ok (.one val d2)

/-- `Dict.__getitem__` as a field lookup returning the value and the
record with its updated mapping. -/
def DictObj.getitem (db : DB) (fuel : Nat) (d : DictObj) (key : String) :
    Except Err (FVal × DictObj) :=
  match runTask db fuel (.one d key) with
  | .ok (.one v d') => .ok (v, d')
  | .ok (.many _) => .error .typeError
  | .error e => .error e

/-- `Dict` item assignment: the source defines no `__setitem__` override,
so assignment is plain `dict.__setitem__` — it stores the value and can
never fail. -/
def DictObj.setitem (d : DictObj) (key : String) (v : FVal) : DictObj :=
  .mk d.table d.inDb (setEntry d.data key v) d.old


/-- Extract a string field from a looked-up relationship record. -/
def resFieldStr (res : Except Err (FVal × DictObj)) (col : String) : Option String :=
  match res with
  | .ok (.record r, _) =>
    match alookup r.data col with
    | some (.v (.s (.str s))) => some s
    | _ => none
  | _ => none

/-- The record state after a lookup (the original record on error). -/
def resDict (res : Except Err (FVal × DictObj)) (dflt : DictObj) : DictObj :=
  match res with
  | .ok (_, d) => d
  | _ => dflt

/-- The string field `col` of a record cached in a record's mapping under
the relationship name `key`. -/
def cachedFieldStr (d : DictObj) (key col : String) : Option String :=
  match alookup d.data key with
  | some (.record r) =>
    match alookup r.data col with
    | some (.v (.s (.str s))) => some s
    | _ => none
  | _ => none

/-- The string payload of an optional plain field value. -/
def fvalStr : Option FVal → Option String
  | some (.v (.s (.str s))) => some s
  | _ => none

/-- The `name` fields of a list of yielded records. -/
def namesOf (l : List DictObj) : List (Option String) :=
  l.map (fun d => fvalStr (alookup d.data "name"))

/-- Whether a lookup produced a null value. -/
def resIsNull (res : Except Err (FVal × DictObj)) : Bool :=
  match res with
  | .ok (.v (.s .null), _) => true
  | _ => false

/-- The error produced by a lookup, if any. -/
def resErr (res : Except Err (FVal × DictObj)) : Option Err :=
  match res with
  | .error e => some e
  | _ => none

/-- The bound variables of a built query, if building succeeded. -/
def rgVars (r : Except Err RGen) : Option (List (String × Value)) :=
  match r with
  | .ok g => some g.vars
  | _ => none

/-- person table with a one-to-one `manager` relationship
(`Person.refs` = manager: `manager_id == id`, single cardinality). -/
def metaC2 : TableMeta :=
  { pks := ["id"], refs := [("manager", .direct "manager_id" "person" "id" false)] }

/-- Bob's stored row. -/
def bobRow : Row := [("id", .int 1), ("name", .str "Bob"), ("manager_id", .null)]

/-- Alice's stored row; her `manager_id` points at Bob. -/
def aliceRowC2 : Row := [("id", .int 2), ("name", .str "Alice"), ("manager_id", .int 1)]

/-- The database before any storage-level mutation. -/
def dbC2 : DB :=
  { kind := .sqlite3, tables := [("person", metaC2)], rows := [("person", [bobRow, aliceRowC2])] }

/-- Bob's row after a storage-level rename to Robert. -/
def bobRow2 : Row := [("id", .int 1), ("name", .str "Robert"), ("manager_id", .null)]

/-- The database after Bob's row was mutated and re-flushed in storage. -/
def dbC2x : DB :=
  { kind := .sqlite3, tables := [("person", metaC2)], rows := [("person", [bobRow2, aliceRowC2])] }

/-- Alice as a persisted record. -/
def aliceC2 : DictObj := rowToDict "person" metaC2 aliceRowC2

/-- person table with no relationships, for the stream scenario. -/
def metaC1 : TableMeta := { pks := ["id"] }

/-- Stream scenario database: two person rows. -/
def dbC1 : DB :=
  { kind := .sqlite3, tables := [("person", metaC1)], rows := [("person", [bobRow, aliceRowC2])] }

/-- Stream scenario database after Bob's row was mutated in storage. -/
def dbC1x : DB :=
  { kind := .sqlite3, tables := [("person", metaC1)], rows := [("person", [bobRow2, aliceRowC2])] }

/-- person table with a one-to-one `manager` relationship
(`id == manager_id`, as in the repository's substratum test) and a
substratum `managers_manager` projecting `manager` over it. -/
def metaC7 : TableMeta :=
  { pks := ["id"],
    refs := [("manager", .direct "id" "person" "manager_id" false),
             ("managers_manager", .sub "manager" "manager")] }

/-- Alice with no manager (`manager_id` NULL). -/
def aliceRowC7 : Row := [("id", .int 1), ("name", .str "Alice"), ("manager_id", .null)]

/-- Substratum scenario database. -/
def dbC7 : DB :=
  { kind := .sqlite3, tables := [("person", metaC7)], rows := [("person", [aliceRowC7])] }

/-- Alice as a persisted record, for the substratum scenario. -/
def aliceC7 : DictObj := rowToDict "person" metaC7 aliceRowC7

/-- car table; in the repository's schema `area` is a generated column. -/
def carMeta : TableMeta := { pks := ["id"] }

/-- A persisted car row whose generated column `area` is NULL. -/
def carC6 : DictObj :=
  rowToDict "car" carMeta [("id", .int 1), ("name", .str "Stratus"), ("area", .null)]

/-- Database for the positional-fetch scenario: `person` has one primary
key, `no_pk` has none. -/
def dbC8 : DB :=
  { kind := .sqlite3,
    tables := [("person", { pks := ["id"] }), ("no_pk", {})],
    rows := [("person", [bobRow]), ("no_pk", [[("foo", .str "bar")]])] }



/-- JSON rendering of a cell, as `json.dumps` would produce it. -/
def scalarJson : Scalar → String
  | .null => "null"
  | .int n => toString n
  | .str s => "\"" ++ s ++ "\""
  | .bool b => cond b "true" "false"

/-- `json.dumps` of a flat dictionary value. -/
def dumps (d : List (String × Scalar)) : String :=
  "\x7b" ++
    String.intercalate ", " (d.map (fun kv => "\"" ++ kv.1 ++ "\": " ++ scalarJson kv.2)) ++
    "\x7d"

/-- The per-value step of `json_dicts` (lines 104-111): only values that
are dictionaries are serialized; everything else is untouched. -/
def jdVal : Value → Value
  | .dict d => .s (.str (dumps d))
  | v => v

/-- `json_dicts`: serialize every dictionary value to its JSON string. -/
def jsonDicts (l : List (String × Value)) : List (String × Value) :=
  l.map (fun kv => (kv.1, jdVal kv.2))

/-- Bind a record's fields as query parameters: every field must hold a
plain value (a cached record/stream is not bindable by the driver). -/
def plainVals (l : List (String × FVal)) : Option (List (String × Value)) :=
  l.mapM (fun kv => (kv.2.toValue?).map (fun v => (kv.1, v)))

/-- Bound parameters destined for storage cells must be scalars (a list
value cannot be stored by `UPDATE ... SET`). -/
def toScalars (l : List (String × Value)) : Option (List (String × Scalar)) :=
  l.mapM (fun kv =>
    match kv.2 with
    | .s sc => some (kv.1, sc)
    | _ => none)

/-- SQL evaluation of the `pk=<bound value>` conjunction used by the
UPDATE's WHERE fragment and the sqlite3 re-fetch: NULL compares equal to
nothing. -/
def rowMatchesPks (pks : List String) (vals : List (String × Scalar)) (r : Row) : Bool :=
  pks.all (fun pk =>
    match alookup vals pk, alookup r pk with
    | some a, some b => !(a == Scalar.null) && !(b == Scalar.null) && a == b
    | _, _ => false)

/-- Apply an UPDATE's SET fragment to a row. -/
def applySet (vals : List (String × Scalar)) (r : Row) : Row :=
  putAll r vals

/-- The row fetched by `Dict.flush` after the UPDATE (lines 556-569):
postgresql returns the updated row via `RETURNING *` (the post-update
image of the rows the snapshot primary keys matched); sqlite3 re-selects
by the new (current) primary-key values. -/
def flushFetch (kind : Kind) (pks : List String) (oldVals newVals : List (String × Scalar))
    (rows0 rows1 : List Row) : Option Row :=
  match kind with
  | .postgresql => ((rows0.filter (rowMatchesPks pks oldVals)).map (applySet newVals)).head?
  | .sqlite3 => (rows1.filter (rowMatchesPks pks newVals)).head?

/-- `Dict.flush` (lines 508-572).  Insert path: send `remove_refs()`
(JSON-serialized) and re-fetch the inserted row.  Update path: require
primary keys; SET values come from the current `remove_refs()` contents,
the WHERE fragment matches the `_old` snapshot primary-key values
(`old_`-prefixed binds); then the row is re-fetched (by the new
primary-key values under sqlite3, via RETURNING under postgresql), the
mapping is updated with the fetched row, and the snapshot is replaced by
the fresh `remove_refs()` contents.  An empty fetch is the source's
`dict.__init__(None)` `TypeError`; unbindable parameters are driver
errors. -/
def DictObj.flush (db : DB) (d : DictObj) : Except Err (DB × DictObj) :=
  let meta := metaOf db d.table
  if d.inDb = false then
    match plainVals (removeRefsData meta d.data) with
    | none => .error .bindError
    | some vals0 =>
      match toScalars (jsonDicts vals0) with
      | none => .error .bindError
      | some row =>
        let db' := setRows db d.table (rowsOf db d.table ++ [row])
        let data' := putAll d.data (row.map (fun kv => (kv.1, FVal.v (Value.s kv.2))))
        .ok (db', DictObj.mk d.table true data' (removeRefsData meta data'))
  else
    if meta.pks.isEmpty then .error .noPrimaryKey
    else
      match plainVals (removeRefsData meta d.data) with
      | none => .error .bindError
      | some vals0 =>
        match toScalars (jsonDicts vals0) with
        | none => .error .bindError
        | some newVals =>
          match plainVals d.old with
          | none => .error .bindError
          | some old0 =>
            match toScalars (jsonDicts old0) with
            | none => .error .bindError
            | some oldVals =>
              let rows0 := rowsOf db d.table
              let rows1 := rows0.map (fun r =>
                if rowMatchesPks meta.pks oldVals r then applySet newVals r else r)
              let db' := setRows db d.table rows1
              match flushFetch db.kind meta.pks oldVals newVals rows0 rows1 with
              | none => .error .typeError
              | some f =>
                let data' := putAll d.data (f.map (fun kv => (kv.1, FVal.v (Value.s kv.2))))
                .ok (db', DictObj.mk d.table true data' (removeRefsData meta data'))


/-- Flush scenario database: one person row with primary key `id = 1`. -/
def dbC3 : DB :=
  { kind := .sqlite3, tables := [("person", { pks := ["id"] })],
    rows := [("person", [[("id", .int 1), ("name", .str "Bob")]])] }

/-- The persisted person record after the caller changes its own primary
key value from 1 to 2 (snapshot still holds `id = 1`). -/
def dC3 : DictObj :=
  (rowToDict "person" { pks := ["id"] } [("id", .int 1), ("name", .str "Bob")]).setitem
    "id" (.v (.s (.int 2)))


/-- Bob as a persisted record (his `manager_id` is NULL). -/
def bobC2 : DictObj := rowToDict "person" metaC2 bobRow

/-- person table whose `manager` relationship points from `id` to
`manager_id`, so several subordinates can match one manager lookup. -/
def metaC4 : TableMeta :=
  { pks := ["id"], refs := [("manager", .direct "id" "person" "manager_id" false)] }

/-- Database where Alice's single-cardinality `manager` lookup matches
two rows (Bob and Carol both carry `manager_id = 1`). -/
def dbC4 : DB :=
  { kind := .sqlite3, tables := [("person", metaC4)],
    rows := [("person",
      [[("id", .int 1), ("name", .str "Alice"), ("manager_id", .null)],
       [("id", .int 2), ("name", .str "Bob"), ("manager_id", .int 1)],
       [("id", .int 3), ("name", .str "Carol"), ("manager_id", .int 1)]])] }

/-- Alice as a persisted record in the two-match scenario. -/
def aliceC4 : DictObj :=
  rowToDict "person" metaC4 [("id", .int 1), ("name", .str "Alice"), ("manager_id", .null)]

-- ========================= claim theorems =========================

/-- C5: the claim says every caller-supplied column name is validated
against an allow-list of letters, digits and underscore before being
interpolated into SQL text, and that a name outside the pattern causes a
hard failure.  In this source `column_value_pairs` performs no validation
at all: a name failing the allow-list pattern is concatenated verbatim
into the produced SQL fragment and no error of any kind is raised (the
source does not even define a cannot-update-column error). -/
theorem c5_no_column_name_validation :
    validColumnName badColumnName = false ∧
    column_value_pairs .postgresql [(badColumnName, Value.s (.str "Bob"))] ", " "" =
      badColumnName ++ "=%(" ++ badColumnName ++ ")s" := by
  constructor
  · decide
  · rfl

/-- C1: the claim (backed by the repository's own caching tests, for
example `test_indexing` and `test_nocache` which read `results.cache`)
says every yielded record is appended to an internal cache list and a
second full iteration replays exactly the cached records.  In this source
`ResultsGenerator` has no cache at all: the first full iteration yields
the two stored rows, and a second full iteration yields nothing — the
statement is not re-executed (zero executions) and the exhausted cursor
just raises `StopIteration` immediately, so the cached replay the claim
describes does not happen. -/
theorem c1_second_iteration_yields_nothing :
    namesOf (rgIterAll dbC1 (get_where_kw dbC1 "person" [])).1 = [some "Bob", some "Alice"] ∧
    namesOf (rgIterAll dbC1x (rgIterAll dbC1 (get_where_kw dbC1 "person" [])).2.1).1 = [] ∧
    (rgIterAll dbC1x (rgIterAll dbC1 (get_where_kw dbC1 "person" [])).2.1).2.2 = 0 := by
  exact ⟨rfl, rfl, rfl⟩

/-- C2: the claim (backed by the repository's own `test_reexecute`, which
stubs out the query method after the first resolution) says that once a
relationship is resolved, later lookups return the stored value without
querying storage again.  In this source the resolved record is indeed
stored into the mapping (`Bob` is cached), but `Dict.__getitem__` takes
the relationship branch whenever the key is in the registry, so the
second lookup issues the query again: after Bob's stored row is renamed
to Robert, the second lookup of `manager` on the same record returns
Robert, not the cached Bob. -/
theorem c2_second_lookup_queries_again :
    resFieldStr (DictObj.getitem dbC2 6 aliceC2 "manager") "name" = some "Bob" ∧
    cachedFieldStr (resDict (DictObj.getitem dbC2 6 aliceC2 "manager") aliceC2) "manager" "name" =
      some "Bob" ∧
    resFieldStr
      (DictObj.getitem dbC2x 6 (resDict (DictObj.getitem dbC2 6 aliceC2 "manager") aliceC2)
        "manager") "name" = some "Robert" := by
  exact ⟨rfl, rfl, rfl⟩

/-- C6: the claim (backed by the repository's own `test_generated_columns`
and `test_injection`, which expect `dictorm.CannotUpdateColumn`) says that
assigning to a computed/generated column fails immediately at assignment
time.  This source defines no `__setitem__` override on `Dict` and no
cannot-update-column error at all: assigning `10` to the generated column
`area` of a persisted car record simply stores the value, with no failure
of any kind. -/
theorem c6_generated_column_assignment_is_accepted :
    alookup (carC6.setitem "area" (.v (.s (.int 10)))).data "area" =
      some (.v (.s (.int 10))) := by
  exact rfl

/-- C7: the claim (backed by the repository's own test at
`test_dictorm.py` line 588, "An empty substratum doesn't error") says a
substratum over a single-cardinality base yields null when the base
resolves to null.  In this source the base `manager` of the record with a
NULL `manager_id` resolves to `None`, and the substratum then evaluates
`None[their_sub_ref]`, raising a `TypeError` instead of yielding null. -/
theorem c7_substratum_on_null_base_raises :
    resIsNull (DictObj.getitem dbC7 6 aliceC7 "manager") = true ∧
    resErr (DictObj.getitem dbC7 6 aliceC7 "managers_manager") = some .typeError := by
  exact ⟨rfl, rfl⟩

/-- C8: the claim (matching the `get_where` docstring, lines 344-345, and
the repository's own `test_errors`, line 464, which both say
`get_where(1, 2)` on a single-primary-key table raises `NoPrimaryKey`)
says the no-primary-key error is raised when the number of positional
values does not match the primary-key arity, and on deletes without a
primary key.  In this source `dict(zip(self.pks, a))` silently truncates
the extra positional value — `get_where(1, 2)` succeeds and filters by
`id=1` only — and `Dict.delete` performs no primary-key check at all: on
a table with no primary keys it builds the malformed statement
`DELETE FROM no_pk WHERE ` instead of raising `NoPrimaryKey`. -/
theorem c8_positional_arity_not_checked :
    rgVars (get_where_pos dbC8 "person" [Value.s (.int 1), Value.s (.int 2)]) =
      some [("id", Value.s (.int 1))] ∧
    deleteQuery .sqlite3 "no_pk" [] = "DELETE FROM no_pk WHERE " := by
  exact ⟨rfl, rfl⟩

/-- Assignment stores the value under the assigned key. -/
theorem alookup_setEntry_self {α : Type} (l : List (String × α)) (k : String) (v : α) :
    alookup (setEntry l k v) k = some v := by
  induction l with
  | nil => simp [setEntry, alookup]
  | cons kv rest ih =>
    by_cases h : kv.1 = k
    · simp [setEntry, h, alookup]
    · simp [setEntry, h, alookup, ih]

/-- Assignment leaves other keys untouched. -/
theorem alookup_setEntry_ne {α : Type} (l : List (String × α)) (k : String) (v : α)
    (k' : String) (h : k' ≠ k) :
    alookup (setEntry l k v) k' = alookup l k' := by
  have h1 : ¬(k = k') := fun e => h e.symm
  induction l with
  | nil =>
    simp only [setEntry, alookup]
    rw [if_neg h1]
  | cons kv rest ih =>
    simp only [setEntry]
    by_cases hk : kv.1 = k
    · have h2 : ¬(kv.1 = k') := by rw [hk]; exact h1
      simp only [if_pos hk, alookup, if_neg h1, if_neg h2]
    · rw [if_neg hk]
      by_cases hk' : kv.1 = k'
      · simp only [alookup, if_pos hk']
      · simp only [alookup, if_neg hk', ih]

/-- A successful lookup means the key occurs in the key list. -/
theorem alookup_eq_some_mem {α : Type} (l : List (String × α)) (k : String) (v : α)
    (h : alookup l k = some v) : k ∈ l.map Prod.fst := by
  induction l with
  | nil => simp [alookup] at h
  | cons kv rest ih =>
    by_cases hk : kv.1 = k
    · simp [hk]
    · simp only [alookup, if_neg hk] at h
      simp only [List.map_cons, List.mem_cons]
      exact Or.inr (ih h)

/-- A key occurring in the key list can be looked up. -/
theorem mem_keys_exists_alookup {α : Type} (l : List (String × α)) (k : String)
    (h : k ∈ l.map Prod.fst) : ∃ v, alookup l k = some v := by
  induction l with
  | nil => simp at h
  | cons kv rest ih =>
    by_cases hk : kv.1 = k
    · exact ⟨kv.2, by simp [alookup, hk]⟩
    · simp only [List.map_cons, List.mem_cons] at h
      rcases h with h | h
      · exact absurd h.symm hk
      · obtain ⟨v, hv⟩ := ih h
        exact ⟨v, by simp [alookup, hk, hv]⟩

/-- `dict.update` with keys not containing `k` does not change `k`. -/
theorem alookup_putAll_not_mem {α : Type} (upd : List (String × α)) (base : List (String × α))
    (k : String) (h : k ∉ upd.map Prod.fst) :
    alookup (putAll base upd) k = alookup base k := by
  induction upd generalizing base with
  | nil => rfl
  | cons u rest ih =>
    simp only [List.map_cons, List.mem_cons, not_or] at h
    have step : putAll base (u :: rest) = putAll (setEntry base u.1 u.2) rest := rfl
    rw [step, ih _ h.2, alookup_setEntry_ne _ _ _ _ h.1]

/-- `dict.update` with unique update keys: an updated key reads back the
updated value. -/
theorem alookup_putAll_mem {α : Type} (upd : List (String × α)) (base : List (String × α))
    (k : String) (hnd : (upd.map Prod.fst).Nodup) (h : k ∈ upd.map Prod.fst) :
    alookup (putAll base upd) k = alookup upd k := by
  induction upd generalizing base with
  | nil => simp at h
  | cons u rest ih =>
    have step : putAll base (u :: rest) = putAll (setEntry base u.1 u.2) rest := rfl
    simp only [List.map_cons, List.nodup_cons] at hnd
    by_cases hk : u.1 = k
    · have hnotin : k ∉ rest.map Prod.fst := by rw [← hk]; exact hnd.1
      have h1 : alookup (setEntry base u.1 u.2) k = some u.2 := by
        rw [hk]; exact alookup_setEntry_self base k u.2
      rw [step, alookup_putAll_not_mem _ _ _ hnotin, h1]
      simp [alookup, hk]
    · simp only [List.map_cons, List.mem_cons] at h
      rcases h with h | h
      · exact absurd h.symm hk
      · rw [step, ih _ hnd.2 h]
        simp [alookup, hk]

/-- Filtering by a key predicate that holds at `k` preserves lookups of
`k`. -/
theorem alookup_filter_prop {α : Type} (l : List (String × α)) (p : String → Bool)
    (k : String) (h : p k = true) :
    alookup (l.filter (fun kv => p kv.1)) k = alookup l k := by
  induction l with
  | nil => rfl
  | cons kv rest ih =>
    by_cases hk : kv.1 = k
    · have hpkv : p kv.1 = true := by rw [hk]; exact h
      rw [List.filter_cons_of_pos (by exact hpkv)]
      simp only [alookup, if_pos hk]
    · cases hp : p kv.1 with
      | true =>
        rw [List.filter_cons_of_pos (by exact hp)]
        simp only [alookup, if_neg hk, ih]
      | false =>
        rw [List.filter_cons_of_neg (by simp [hp])]
        simp only [alookup, if_neg hk, ih]

/-- Lookup commutes with mapping over values. -/
theorem alookup_map_value {α β : Type} (l : List (String × α)) (g : α → β) (k : String) :
    alookup (l.map (fun kv => (kv.1, g kv.2))) k = (alookup l k).map g := by
  induction l with
  | nil => rfl
  | cons kv rest ih =>
    by_cases hk : kv.1 = k
    · simp [alookup, hk, ih]
    · simp [alookup, hk, ih]

/-- The key list after an assignment. -/
theorem setEntry_keys {α : Type} (l : List (String × α)) (k : String) (v : α) :
    (setEntry l k v).map Prod.fst =
      if k ∈ l.map Prod.fst then l.map Prod.fst else l.map Prod.fst ++ [k] := by
  induction l with
  | nil => simp [setEntry]
  | cons kv rest ih =>
    by_cases hk : kv.1 = k
    · simp [setEntry, hk]
    · have hks : ¬(k = kv.1) := fun e => hk e.symm
      by_cases hm : k ∈ rest.map Prod.fst <;>
        simp [setEntry, hk, ih, hm, hks]

/-- Assignment preserves uniqueness of keys. -/
theorem setEntry_keys_nodup {α : Type} (l : List (String × α)) (k : String) (v : α)
    (h : (l.map Prod.fst).Nodup) : ((setEntry l k v).map Prod.fst).Nodup := by
  rw [setEntry_keys]
  by_cases hm : k ∈ l.map Prod.fst
  · simpa [hm]
  · simp [hm, List.nodup_append, h]

/-- `dict.update` preserves uniqueness of keys. -/
theorem putAll_keys_nodup {α : Type} (upd : List (String × α)) (base : List (String × α))
    (h : (base.map Prod.fst).Nodup) : ((putAll base upd).map Prod.fst).Nodup := by
  induction upd generalizing base with
  | nil => exact h
  | cons u rest ih =>
    exact ih _ (setEntry_keys_nodup _ _ _ h)

/-- Keys are untouched by mapping over values. -/
theorem map_value_keys {α β : Type} (l : List (String × α)) (g : α → β) :
    (l.map (fun kv => (kv.1, g kv.2))).map Prod.fst = l.map Prod.fst := by
  induction l with
  | nil => rfl
  | cons kv rest ih => simp [ih]

/-- Reading back a table's rows after replacing them. -/
theorem rowsOf_setRows (db : DB) (t : String) (rs : List Row) :
    rowsOf (setRows db t rs) t = rs := by
  simp [rowsOf, setRows, alookup_setEntry_self]

/-- A row matching the primary-key conjunction agrees with the bound
values on every primary-key column. -/
theorem rowMatchesPks_alookup (pks : List String) (vals : List (String × Scalar)) (r : Row)
    (pk : String) (h : rowMatchesPks pks vals r = true) (hpk : pk ∈ pks) :
    alookup r pk = alookup vals pk := by
  unfold rowMatchesPks at h
  rw [List.all_eq_true] at h
  have hp := h pk hpk
  cases hv : alookup vals pk with
  | none =>
    rw [hv] at hp
    cases hr : alookup r pk
    · simp [hr] at hp
    · simp [hr] at hp
  | some a =>
    cases hr : alookup r pk with
    | none => rw [hv, hr] at hp; simp at hp
    | some b =>
      rw [hv, hr] at hp
      simp only [Bool.and_eq_true, beq_iff_eq] at hp
      rw [hp.2]

/-- The row fetched after an UPDATE is either the post-update image of a
stored row (postgresql `RETURNING`) or an updated-table row matching the
new primary-key values (sqlite3 re-select). -/
theorem flushFetch_cases (kind : Kind) (pks : List String)
    (ov nv : List (String × Scalar)) (rows0 rows1 : List Row) (f : Row)
    (h : flushFetch kind pks ov nv rows0 rows1 = some f) :
    (∃ r0, r0 ∈ rows0 ∧ f = applySet nv r0) ∨
      (f ∈ rows1 ∧ rowMatchesPks pks nv f = true) := by
  cases kind with
  | postgresql =>
    left
    unfold flushFetch at h
    cases hf : rows0.filter (rowMatchesPks pks ov) with
    | nil => rw [hf] at h; simp at h
    | cons a t =>
      rw [hf] at h
      simp only [List.map_cons, List.head?_cons, Option.some.injEq] at h
      refine ⟨a, ?_, h.symm⟩
      have ha : a ∈ rows0.filter (rowMatchesPks pks ov) := by
        rw [hf]; exact List.mem_cons_self a t
      exact List.mem_of_mem_filter ha
  | sqlite3 =>
    right
    unfold flushFetch at h
    cases hf : rows1.filter (rowMatchesPks pks nv) with
    | nil => rw [hf] at h; simp at h
    | cons a t =>
      rw [hf] at h
      simp only [List.head?_cons, Option.some.injEq] at h
      have ha : a ∈ rows1.filter (rowMatchesPks pks nv) := by
        rw [hf]; exact List.mem_cons_self a t
      have hmf := List.mem_filter.mp ha
      rw [← h]
      exact ⟨hmf.1, hmf.2⟩

/-- The fetched row carries the new value of every primary-key column. -/
theorem flushFetch_pk_lookup (kind : Kind) (pks : List String)
    (ov nv : List (String × Scalar)) (rows0 rows1 : List Row) (f : Row) (pk : String)
    (h : flushFetch kind pks ov nv rows0 rows1 = some f)
    (hnd : (nv.map Prod.fst).Nodup)
    (hpkin : pk ∈ nv.map Prod.fst)
    (hpk : pk ∈ pks) :
    alookup f pk = alookup nv pk := by
  rcases flushFetch_cases kind pks ov nv rows0 rows1 f h with ⟨r0, _, rfl⟩ | ⟨_, hm⟩
  · exact alookup_putAll_mem nv r0 pk hnd hpkin
  · exact rowMatchesPks_alookup pks nv f pk hm hpk

/-- The fetched row has unique column names when the stored rows do. -/
theorem flushFetch_keys_nodup (kind : Kind) (pks : List String)
    (ov nv : List (String × Scalar)) (rows0 rows1 : List Row) (f : Row)
    (h : flushFetch kind pks ov nv rows0 rows1 = some f)
    (hr0 : ∀ r ∈ rows0, ((r : Row).map Prod.fst).Nodup)
    (hr1 : ∀ r ∈ rows1, ((r : Row).map Prod.fst).Nodup) :
    (f.map Prod.fst).Nodup := by
  rcases flushFetch_cases kind pks ov nv rows0 rows1 f h with ⟨r0, hr, rfl⟩ | ⟨hm, _⟩
  · exact putAll_keys_nodup nv r0 (hr0 r0 hr)
  · exact hr1 f hm

/-- C3: for an already-persisted record on a table with primary keys,
`Dict.flush` updates exactly the stored rows matching the *snapshot*
(`_old`) primary-key values, applying the record's *current* own-column
values as the SET fragment; afterwards the snapshot is replaced by the
fresh own-column contents, and in particular every primary-key column of
the new snapshot holds the new (current) value — which is why changing a
primary-key value and flushing updates the originally-identified row, and
a second change-and-flush again locates the correct row. -/
theorem c3_flush_update_uses_snapshot_pks
    (db : DB) (d : DictObj) (meta : TableMeta)
    (vals0 : List (String × Value)) (newVals : List (String × Scalar))
    (old0 : List (String × Value)) (oldVals : List (String × Scalar)) (f : Row)
    (hmeta : metaOf db d.table = meta)
    (hin : d.inDb = true)
    (hpk : meta.pks.isEmpty = false)
    (hnew : plainVals (removeRefsData meta d.data) = some vals0)
    (hnewS : toScalars (jsonDicts vals0) = some newVals)
    (hold : plainVals d.old = some old0)
    (holdS : toScalars (jsonDicts old0) = some oldVals)
    (hfetch : flushFetch db.kind meta.pks oldVals newVals (rowsOf db d.table)
      ((rowsOf db d.table).map (fun r =>
        if rowMatchesPks meta.pks oldVals r then applySet newVals r else r)) = some f)
    (hnd : (newVals.map Prod.fst).Nodup)
    (hrows : ∀ r ∈ rowsOf db d.table, ((r : Row).map Prod.fst).Nodup)
    (hpkin : ∀ pk ∈ meta.pks, pk ∈ newVals.map Prod.fst)
    (hpknr : ∀ pk ∈ meta.pks, alookup meta.refs pk = none) :
    ∃ db' d',
      DictObj.flush db d = .ok (db', d') ∧
      rowsOf db' d.table =
        (rowsOf db d.table).map (fun r =>
          if rowMatchesPks meta.pks oldVals r then applySet newVals r else r) ∧
      d'.old = removeRefsData meta d'.data ∧
      (∀ pk ∈ meta.pks,
        alookup d'.old pk = (alookup newVals pk).map (fun sc => FVal.v (Value.s sc))) := by
  subst hmeta
  have hflush :
      DictObj.flush db d =
        .ok (setRows db d.table
              ((rowsOf db d.table).map (fun r =>
                if rowMatchesPks (metaOf db d.table).pks oldVals r
                then applySet newVals r else r)),
             DictObj.mk d.table true
               (putAll d.data (f.map (fun kv => (kv.1, FVal.v (Value.s kv.2)))))
               (removeRefsData (metaOf db d.table)
                 (putAll d.data (f.map (fun kv => (kv.1, FVal.v (Value.s kv.2))))))) := by
    unfold DictObj.flush
    simp only [hin, hpk, hnew, hnewS, hold, holdS, hfetch, Bool.true_eq_false, if_false,
      Bool.false_eq_true]
  refine ⟨_, _, hflush, rowsOf_setRows _ _ _, rfl, ?_⟩
  intro pk hpkmem
  have hr1 : ∀ r ∈ (rowsOf db d.table).map (fun r =>
      if rowMatchesPks (metaOf db d.table).pks oldVals r then applySet newVals r else r),
      ((r : Row).map Prod.fst).Nodup := by
    intro r hr
    obtain ⟨r0, hr0, rfl⟩ := List.mem_map.mp hr
    by_cases hc : rowMatchesPks (metaOf db d.table).pks oldVals r0 = true
    · simp only [hc, if_true]
      exact putAll_keys_nodup _ _ (hrows r0 hr0)
    · simp only [hc, if_false]
      exact hrows r0 hr0
  have hf_pk : alookup f pk = alookup newVals pk :=
    flushFetch_pk_lookup db.kind (metaOf db d.table).pks oldVals newVals _ _ f pk hfetch hnd
      (hpkin pk hpkmem) hpkmem
  have hfnd : (f.map Prod.fst).Nodup :=
    flushFetch_keys_nodup db.kind (metaOf db d.table).pks oldVals newVals _ _ f hfetch hrows hr1
  have hmemf : pk ∈ f.map Prod.fst := by
    obtain ⟨v, hv⟩ := mem_keys_exists_alookup newVals pk (hpkin pk hpkmem)
    exact alookup_eq_some_mem f pk v (by rw [hf_pk, hv])
  show alookup (removeRefsData (metaOf db d.table)
      (putAll d.data (f.map (fun kv => (kv.1, FVal.v (Value.s kv.2)))))) pk =
    (alookup newVals pk).map (fun sc => FVal.v (Value.s sc))
  unfold removeRefsData
  rw [alookup_filter_prop _ (fun s => (alookup (metaOf db d.table).refs s).isNone) _
    (by simp [hpknr pk hpkmem])]
  rw [alookup_putAll_mem _ _ _
    (by rw [map_value_keys f (fun sc => FVal.v (Value.s sc))]; exact hfnd)
    (by rw [map_value_keys f (fun sc => FVal.v (Value.s sc))]; exact hmemf)]
  rw [alookup_map_value f (fun sc => FVal.v (Value.s sc)) pk, hf_pk]

/-- Witness for C3: the concrete change-the-primary-key flush. -/
theorem c3_flush_witness :
    dC3.inDb = true ∧
    (∃ db' d',
      DictObj.flush dbC3 dC3 = .ok (db', d') ∧
      rowsOf db' dC3.table =
        (rowsOf dbC3 dC3.table).map (fun r =>
          if rowMatchesPks (metaOf dbC3 dC3.table).pks
              [("id", Scalar.int 1), ("name", Scalar.str "Bob")] r
          then applySet [("id", Scalar.int 2), ("name", Scalar.str "Bob")] r else r) ∧
      d'.old = removeRefsData (metaOf dbC3 dC3.table) d'.data ∧
      (∀ pk ∈ (metaOf dbC3 dC3.table).pks,
        alookup d'.old pk =
          (alookup [("id", Scalar.int 2), ("name", Scalar.str "Bob")] pk).map
            (fun sc => FVal.v (Value.s sc)))) :=
  ⟨rfl,
    c3_flush_update_uses_snapshot_pks dbC3 dC3 (metaOf dbC3 dC3.table)
      [("id", Value.s (.int 2)), ("name", Value.s (.str "Bob"))]
      [("id", Scalar.int 2), ("name", Scalar.str "Bob")]
      [("id", Value.s (.int 1)), ("name", Value.s (.str "Bob"))]
      [("id", Scalar.int 1), ("name", Scalar.str "Bob")]
      [("id", Scalar.int 2), ("name", Scalar.str "Bob")]
      rfl rfl rfl rfl rfl rfl rfl rfl (by decide) (by decide) (by decide) (by decide)⟩

/-- After `_execute_once`, the pending statement is always cleared. -/
theorem rgExecOnce_sql_none (db : DB) (g : RGen) : ((rgExecOnce db g).1).sql = none := by
  unfold rgExecOnce
  cases h : g.sql with
  | none => simp only [h]
  | some q => simp [h]

/-- `_execute_once` performs at most one execution. -/
theorem rgExecOnce_count_le (db : DB) (g : RGen) : (rgExecOnce db g).2 ≤ 1 := by
  unfold rgExecOnce
  cases h : g.sql <;> simp [h]

/-- `_execute_once` on an already-executed generator is a no-op. -/
theorem rgExecOnce_of_none (db : DB) (g : RGen) (h : g.sql = none) :
    rgExecOnce db g = (g, 0) := by
  unfold rgExecOnce
  rw [h]

/-- `_execute_once` on a pending statement executes it exactly once. -/
theorem rgExecOnce_count_of_some (db : DB) (g : RGen) (h : g.sql.isSome = true) :
    (rgExecOnce db g).2 = 1 := by
  unfold rgExecOnce
  cases hh : g.sql with
  | none => rw [hh] at h; simp at h
  | some q => simp [hh]

/-- `__next__` leaves no pending statement behind. -/
theorem rgNext_sql_none (db : DB) (g : RGen) : ((rgNext db g).2.1).sql = none := by
  unfold rgNext
  cases hc : ((rgExecOnce db g).1).curs with
  | nil => simp [hc, rgExecOnce_sql_none]
  | cons r rest => simp [hc, rgExecOnce_sql_none]

/-- `__next__` executes exactly as often as `_execute_once` does. -/
theorem rgNext_count (db : DB) (g : RGen) : (rgNext db g).2.2 = (rgExecOnce db g).2 := by
  unfold rgNext
  cases hc : ((rgExecOnce db g).1).curs with
  | nil => simp [hc]
  | cons r rest => simp [hc]

/-- `__len__` leaves no pending statement behind. -/
theorem rgLen_sql_none (db : DB) (g : RGen) : ((rgLen db g).2.1).sql = none := by
  unfold rgLen
  cases db.kind <;> simp [rgExecOnce_sql_none]

/-- `__len__` executes exactly as often as `_execute_once` does. -/
theorem rgLen_count (db : DB) (g : RGen) : (rgLen db g).2.2 = (rgExecOnce db g).2 := by
  unfold rgLen
  cases db.kind <;> simp

/-- Any generator operation leaves no pending statement behind. -/
theorem rgApplyOp_sql_none (db : DB) (g : RGen) (op : RGOp) :
    ((rgApplyOp db g op).1).sql = none := by
  cases op with
  | next => exact rgNext_sql_none db g
  | len => exact rgLen_sql_none db g

/-- A single generator operation executes the statement at most once. -/
theorem rgApplyOp_count_le (db : DB) (g : RGen) (op : RGOp) :
    (rgApplyOp db g op).2 ≤ 1 := by
  cases op with
  | next => rw [show (rgApplyOp db g .next).2 = (rgNext db g).2.2 from rfl, rgNext_count]
            exact rgExecOnce_count_le db g
  | len => rw [show (rgApplyOp db g .len).2 = (rgLen db g).2.2 from rfl, rgLen_count]
           exact rgExecOnce_count_le db g

/-- A generator operation on an already-executed generator executes
nothing. -/
theorem rgApplyOp_count_none (db : DB) (g : RGen) (op : RGOp) (h : g.sql = none) :
    (rgApplyOp db g op).2 = 0 := by
  cases op with
  | next => rw [show (rgApplyOp db g .next).2 = (rgNext db g).2.2 from rfl, rgNext_count,
                rgExecOnce_of_none db g h]
  | len => rw [show (rgApplyOp db g .len).2 = (rgLen db g).2.2 from rfl, rgLen_count,
               rgExecOnce_of_none db g h]

/-- A generator operation on a pending statement executes it exactly
once. -/
theorem rgApplyOp_count_some (db : DB) (g : RGen) (op : RGOp) (h : g.sql.isSome = true) :
    (rgApplyOp db g op).2 = 1 := by
  cases op with
  | next => rw [show (rgApplyOp db g .next).2 = (rgNext db g).2.2 from rfl, rgNext_count]
            exact rgExecOnce_count_of_some db g h
  | len => rw [show (rgApplyOp db g .len).2 = (rgLen db g).2.2 from rfl, rgLen_count]
           exact rgExecOnce_count_of_some db g h

/-- A whole operation sequence on an already-executed generator executes
nothing. -/
theorem rgRunOps_count_none (db : DB) (g : RGen) (ops : List RGOp) (h : g.sql = none) :
    (rgRunOps db g ops).2 = 0 := by
  induction ops generalizing g with
  | nil => rfl
  | cons op rest ih =>
    have h1 := rgApplyOp_count_none db g op h
    have h2 := rgApplyOp_sql_none db g op
    simp [rgRunOps, h1, ih _ h2]

/-- C9: for any `ResultsGenerator` and any sequence of iteration steps
and length queries, the underlying statement is executed at most once;
and for a freshly built generator (statement still pending) any nonempty
operation sequence executes it exactly once — the first operation
executes, every later `_execute_once` is a no-op. -/
theorem c9_statement_executes_at_most_once (db : DB) (g : RGen) (ops : List RGOp) :
    (rgRunOps db g ops).2 ≤ 1 ∧
    (g.sql.isSome = true → ops ≠ [] → (rgRunOps db g ops).2 = 1) := by
  constructor
  · cases ops with
    | nil => simp [rgRunOps]
    | cons op rest =>
      have h2 := rgApplyOp_sql_none db g op
      have h0 := rgRunOps_count_none db _ rest h2
      have h1 := rgApplyOp_count_le db g op
      simpa [rgRunOps, h0] using h1
  · intro hs hne
    cases ops with
    | nil => exact absurd rfl hne
    | cons op rest =>
      have h2 := rgApplyOp_sql_none db g op
      have h0 := rgRunOps_count_none db _ rest h2
      have h1 := rgApplyOp_count_some db g op hs
      simp [rgRunOps, h0, h1]

/-- Witness for C9: a fresh generator over the two-person table, driven
through three operations, executes its statement exactly once. -/
theorem c9_witness :
    (get_where_kw dbC1 "person" []).sql.isSome = true ∧
    (rgRunOps dbC1 (get_where_kw dbC1 "person" []) [RGOp.next, RGOp.len, RGOp.next]).2 = 1 :=
  ⟨rfl,
    (c9_statement_executes_at_most_once dbC1 (get_where_kw dbC1 "person" [])
      [RGOp.next, RGOp.len, RGOp.next]).2 rfl (by decide)⟩

/-- `Table.get_one` in terms of the executed select: the fetched list is
the filtered, ordered rows, materialized as records. -/
theorem get_one_kw_unfold (db : DB) (t : String) (kw : List (String × Value)) :
    get_one_kw db t kw =
      (if 1 < ((executeSelect db t kw (tableOrderBy (metaOf db t))).map
          (rowToDict t (metaOf db t))).length
       then .error .unexpectedRows
       else
        match (executeSelect db t kw (tableOrderBy (metaOf db t))).map
            (rowToDict t (metaOf db t)) with
        | [] => .error .indexError
        | d :: _ => .ok d) := rfl

/-- `get_one` on a filter matching no rows raises `IndexError` (`l[0]` on
an empty list). -/
theorem get_one_kw_empty (db : DB) (t : String) (kw : List (String × Value))
    (h : executeSelect db t kw (tableOrderBy (metaOf db t)) = []) :
    get_one_kw db t kw = .error .indexError := by
  rw [get_one_kw_unfold, h]
  simp

/-- `get_one` on a filter matching at least two rows raises
`UnexpectedRows`. -/
theorem get_one_kw_many (db : DB) (t : String) (kw : List (String × Value))
    (r1 r2 : Row) (rest : List Row)
    (h : executeSelect db t kw (tableOrderBy (metaOf db t)) = r1 :: r2 :: rest) :
    get_one_kw db t kw = .error .unexpectedRows := by
  rw [get_one_kw_unfold, h]
  simp only [List.map_cons, List.length_cons, List.length_map]
  rw [if_pos (by omega)]

/-- A field lookup for a key outside the relationship registry reads the
record's own mapping and does not touch the record. -/
theorem runTask_plain (db : DB) (d : DictObj) (key : String) (v : FVal) (fuel : Nat)
    (href : alookup (metaOf db d.table).refs key = none)
    (hdata : alookup d.data key = some v) :
    runTask db (fuel + 1) (.one d key) = .ok (.one v d) := by
  simp only [runTask, href, hdata]

/-- A field lookup for a direct single-cardinality relationship resolves
it afresh via `get_one` and stores the result into the mapping. -/
theorem runTask_direct_single (db : DB) (d : DictObj) (key my tt tc : String)
    (mv : Value) (fuel : Nat)
    (h1 : alookup (metaOf db d.table).refs key = some (.direct my tt tc false))
    (h2 : alookup (metaOf db d.table).refs my = none)
    (h3 : alookup d.data my = some (.v mv)) :
    runTask db (fuel + 2) (.one d key) =
      match resolveDirectVal db tt tc false mv with
      | .ok val => .ok (.one val (DictObj.mk d.table d.inDb (setEntry d.data key val) d.old))
      | .error e => .error e := by
  have hin := runTask_plain db d my (.v mv) fuel h2 h3
  conv_lhs => rw [runTask]
  simp only [h1, hin, bind, Except.bind, pure, Except.pure, FVal.toValue?]
  cases hr : resolveDirectVal db tt tc false mv <;> simp [hr]

/-- `Dict.__getitem__` on a direct single-cardinality relationship, in
terms of the resolution outcome. -/
theorem getitem_direct_single (db : DB) (d : DictObj) (key my tt tc : String)
    (mv : Value) (fuel : Nat)
    (h1 : alookup (metaOf db d.table).refs key = some (.direct my tt tc false))
    (h2 : alookup (metaOf db d.table).refs my = none)
    (h3 : alookup d.data my = some (.v mv)) :
    DictObj.getitem db (fuel + 2) d key =
      match resolveDirectVal db tt tc false mv with
      | .ok val => .ok (val, DictObj.mk d.table d.inDb (setEntry d.data key val) d.old)
      | .error e => .error e := by
  unfold DictObj.getitem
  rw [runTask_direct_single db d key my tt tc mv fuel h1 h2 h3]
  cases hr : resolveDirectVal db tt tc false mv <;> simp [hr]

/-- C10: a single-row fetch whose filter matches zero rows raises
`IndexError` at the public interface (`get_one` returns `l[0]` of an
empty list), not null and not a dedicated semantic error; the
null-on-zero-rows behaviour exists only inside relationship resolution
(`Dict.__getitem__`), which catches exactly this `IndexError` and caches
a null value instead. -/
theorem c10_get_one_zero_rows_is_index_error :
    (∀ (db : DB) (t : String) (kw : List (String × Value)),
      executeSelect db t kw (tableOrderBy (metaOf db t)) = [] →
      get_one_kw db t kw = .error .indexError) ∧
    (∀ (db : DB) (d : DictObj) (key my tt tc : String) (mv : Value) (fuel : Nat),
      alookup (metaOf db d.table).refs key = some (.direct my tt tc false) →
      alookup (metaOf db d.table).refs my = none →
      alookup d.data my = some (.v mv) →
      executeSelect db tt [(tc, mv)] (tableOrderBy (metaOf db tt)) = [] →
      DictObj.getitem db (fuel + 2) d key =
        .ok (.v (.s .null),
          DictObj.mk d.table d.inDb (setEntry d.data key (.v (.s .null))) d.old)) := by
  constructor
  · intro db t kw h
    exact get_one_kw_empty db t kw h
  · intro db d key my tt tc mv fuel h1 h2 h3 h4
    rw [getitem_direct_single db d key my tt tc mv fuel h1 h2 h3]
    simp [resolveDirectVal, get_one_kw_empty db tt [(tc, mv)] h4]

/-- Witness for C10: Bob's `manager_id` is NULL, so the related-row
filter matches nothing; the public `get_one` raises `IndexError` while
the relationship lookup on the record yields (and caches) null. -/
theorem c10_witness :
    executeSelect dbC2 "person" [("id", Value.s .null)] (tableOrderBy (metaOf dbC2 "person")) = [] ∧
    get_one_kw dbC2 "person" [("id", Value.s .null)] = .error .indexError ∧
    DictObj.getitem dbC2 2 bobC2 "manager" =
      .ok (.v (.s .null),
        DictObj.mk bobC2.table bobC2.inDb (setEntry bobC2.data "manager" (.v (.s .null)))
          bobC2.old) :=
  ⟨rfl,
    (c10_get_one_zero_rows_is_index_error).1 dbC2 "person" [("id", Value.s .null)] rfl,
    (c10_get_one_zero_rows_is_index_error).2 dbC2 bobC2 "manager" "manager_id" "person" "id"
      (Value.s .null) 0 rfl rfl rfl rfl⟩

/-- C4 counterexample: the claim extends the null-on-zero-rows behaviour
to "every single-row fetch generally", but the public single-row fetch on
a filter matching zero rows is a failure (`IndexError`), not a null
result. -/
theorem c4_counterexample_get_one_zero_rows_fails :
    get_one_kw dbC7 "person" [("manager_id", Value.s (.int 1))] = .error .indexError := rfl

/-- C4 (amended): for a Record field lookup resolving a direct
single-cardinality relationship, matching zero rows yields a null value
rather than a failure and matching more than one row raises the
unexpected-row-count error; only the relationship path yields null — the
underlying single-row fetch itself raises an index error on zero rows
(see C10). -/
theorem c4_single_relationship_zero_null_many_error :
    (∀ (db : DB) (d : DictObj) (key my tt tc : String) (mv : Value) (fuel : Nat),
      alookup (metaOf db d.table).refs key = some (.direct my tt tc false) →
      alookup (metaOf db d.table).refs my = none →
      alookup d.data my = some (.v mv) →
      executeSelect db tt [(tc, mv)] (tableOrderBy (metaOf db tt)) = [] →
      DictObj.getitem db (fuel + 2) d key =
        .ok (.v (.s .null),
          DictObj.mk d.table d.inDb (setEntry d.data key (.v (.s .null))) d.old)) ∧
    (∀ (db : DB) (d : DictObj) (key my tt tc : String) (mv : Value) (fuel : Nat)
      (r1 r2 : Row) (rest : List Row),
      alookup (metaOf db d.table).refs key = some (.direct my tt tc false) →
      alookup (metaOf db d.table).refs my = none →
      alookup d.data my = some (.v mv) →
      executeSelect db tt [(tc, mv)] (tableOrderBy (metaOf db tt)) = r1 :: r2 :: rest →
      DictObj.getitem db (fuel + 2) d key = .error .unexpectedRows) := by
  constructor
  · intro db d key my tt tc mv fuel h1 h2 h3 h4
    rw [getitem_direct_single db d key my tt tc mv fuel h1 h2 h3]
    simp [resolveDirectVal, get_one_kw_empty db tt [(tc, mv)] h4]
  · intro db d key my tt tc mv fuel r1 r2 rest h1 h2 h3 h4
    rw [getitem_direct_single db d key my tt tc mv fuel h1 h2 h3]
    simp [resolveDirectVal, get_one_kw_many db tt [(tc, mv)] r1 r2 rest h4]

/-- Witness for the amended C4: Alice's null-base lookup yields null, and
the two-subordinate lookup raises `UnexpectedRows`. -/
theorem c4_witness :
    executeSelect dbC7 "person" [("manager_id", Value.s (.int 1))]
      (tableOrderBy (metaOf dbC7 "person")) = [] ∧
    DictObj.getitem dbC7 2 aliceC7 "manager" =
      .ok (.v (.s .null),
        DictObj.mk aliceC7.table aliceC7.inDb
          (setEntry aliceC7.data "manager" (.v (.s .null))) aliceC7.old) ∧
    DictObj.getitem dbC4 2 aliceC4 "manager" = .error .unexpectedRows :=
  ⟨rfl,
    (c4_single_relationship_zero_null_many_error).1 dbC7 aliceC7 "manager" "id" "person"
      "manager_id" (Value.s (.int 1)) 0 rfl rfl rfl rfl,
    (c4_single_relationship_zero_null_many_error).2 dbC4 aliceC4 "manager" "id" "person"
      "manager_id" (Value.s (.int 1)) 0
      [("id", .int 2), ("name", .str "Bob"), ("manager_id", .int 1)]
      [("id", .int 3), ("name", .str "Carol"), ("manager_id", .int 1)] []
      rfl rfl rfl rfl⟩
